import Mathlib

/-!
Shallow embedding of `lldb/examples/summaries/cocoa/objc_runtime.py`:
the Objective-C runtime class-metadata walker used by the Cocoa data
formatters.  Python objects become Lean structures, the debugger's
process-memory primitives become an explicit `Memory` record, lazy
attribute mutation becomes explicit state passing, and Python exceptions
(AttributeError / TypeError raised by the source on some paths) become a
`PyResult` error value.  Every memory read performed by a walk is logged
in an explicit trace of `ReadEv` events so that read-count properties can
be stated.
-/

/-- Python exceptions that the source code can actually raise on the
modelled paths. -/
inductive PyErr where
  | attributeError
  | typeError
deriving Repr, DecidableEq

/-- Result of running a piece of Python code: a value, or an uncaught
exception propagating to the caller. -/
inductive PyResult (α : Type) where
  | ok : α → PyResult α
  | exn : PyErr → PyResult α
deriving Repr, DecidableEq

/-- One memory-read event issued against the inspected process:
a pointer-sized word read (`read_child_of` with `addr_ptr_type`),
a 32-bit word read (`read_child_of` with `uint32_t`), or a C-string read
(`read_ascii` / `ReadCStringFromMemory`). -/
inductive ReadEv where
  | word : Nat → ReadEv
  | word32 : Nat → ReadEv
  | str : Nat → ReadEv
deriving Repr, DecidableEq

/-- The process-memory primitives the walker consumes (LLDB's
`CreateChildAtOffset`/`GetValueAsUnsigned` and `ReadCStringFromMemory`).
`none` models a failed read (unmapped page, stopped process, ...). -/
structure Memory where
  word : Nat → Option Nat
  word32 : Nat → Option Nat
  cstr : Nat → Option String

/-- `SystemParameters`: the per-process architecture context.  In the
source, `adjust_for_architecture` sets `pointer_size` from the process and
`is_64_bit = (pointer_size == 8)`; `adjust_for_process` fills `is_lion`
and `runtime_version` from per-pid caches. -/
structure SysParams where
  pointer_size : Nat
  is_64_bit : Bool
  is_lion : Bool
  runtime_version : Nat
deriving Repr, DecidableEq

/-- `SystemParameters.adjust_for_architecture`: `is_64_bit` is derived
from the pointer size reported by the process. -/
def SysParams.adjust_for_architecture (pointer_size : Nat) (is_lion : Bool)
    (runtime_version : Nat) : SysParams :=
  { pointer_size := pointer_size, is_64_bit := pointer_size == 8,
    is_lion := is_lion, runtime_version := runtime_version }

namespace Utilities

/-- `Utilities.read_ascii`: read a bounded, nul-terminated ASCII string;
returns `none` when the pointer is `None` (the call raises inside the
`try` and is swallowed), the read fails, or the content is empty.  The
trace records the attempted string read. -/
def read_ascii (mem : Memory) (pointer : Option Nat) : Option String × List ReadEv :=
  match pointer with
  | none => (none, [])
  | some p =>
    match mem.cstr p with
    | none => (none, [ReadEv.str p])
    | some content => (if content.length == 0 then none else some content, [ReadEv.str p])

/-- `Utilities.is_valid_pointer`. -/
def is_valid_pointer (pointer : Option Nat) (pointer_size : Nat)
    (allow_tagged : Bool) (allow_NULL : Bool) : Bool :=
  match pointer with
  | none => false
  | some p =>
    if p == 0 then allow_NULL
    else if allow_tagged && (p % 2 == 1) then true
    else p % pointer_size == 0

/-- `Utilities.is_allowed_pointer`: pointers in a `class_t` never have
bits 47 thru 63 set. -/
def is_allowed_pointer (pointer : Option Nat) : Bool :=
  match pointer with
  | none => false
  | some p => (p &&& 0xFFFF800000000000) == 0

/-- The byte values allowed in a class name by `is_valid_identifier`. -/
def ok_values : List Char :=
  "$%_.-ABCDEFGHIJKLMNOPQRSTUVWXYZabcdefghijklmnopqrstuvwxyz1234567890".toList

/-- `Utilities.is_valid_identifier`.  The Python returns `None` for a
`None` or empty name and a `bool` otherwise; every call site only tests
truthiness, so `None` and `False` coincide and we return `Bool`. -/
def is_valid_identifier (name : Option String) : Bool :=
  match name with
  | none => false
  | some s =>
    if s.length == 0 then false
    else s.toList.all (fun c => ok_values.contains c)

/-- Python `x & ~m` for a nonnegative `x` when `m + 1` is a power of two:
`~m` is the infinite-width complement `-(m+1)`, so the conjunction just
clears the low bits, i.e. rounds `x` down to a multiple of `m + 1`. -/
def and_not_mask (x m : Nat) : Nat := x / (m + 1) * (m + 1)

end Utilities

/-- `class_ro_t` wrapper (`RoT_Data`).  `instanceSize` is the lazily
fetched attribute: `__init__` sets it to Python `None` (`Option.none`
here) and the first `instance_size` request fills it from memory.
`base` is the address the wrapped value object points at. -/
structure RoT_Data where
  valid : Bool
  base : Nat := 0
  namePointer : Option Nat := none
  name : Option String := none
  instanceSize : Option Nat := none
  sys_params : SysParams
deriving Repr, DecidableEq

/-- `RoT_Data.__init__`, with the memory reads it performs traced.
`check_valid` in the source unconditionally sets `valid = True` (the
name-pointer sanity check is commented out because misaligned name
pointers occur in practice); the name is then read and validated as an
identifier. -/
def RoT_Data.mk' (rotv : Nat) (params : SysParams) (mem : Memory) :
    RoT_Data × List ReadEv :=
  if Utilities.is_valid_pointer (some rotv) params.pointer_size false false then
    let offset := if params.is_64_bit then 24 else 16
    let namePointer := mem.word (rotv + offset)
    let d0 : RoT_Data :=
      { valid := true, base := rotv, namePointer := namePointer,
        name := none, instanceSize := none, sys_params := params }
    let res := Utilities.read_ascii mem namePointer
    let d1 := { d0 with name := res.1 }
    if Utilities.is_valid_identifier res.1 then
      (d1, ReadEv.word (rotv + offset) :: res.2)
    else
      ({ d1 with valid := false }, ReadEv.word (rotv + offset) :: res.2)
  else
    ({ valid := false, sys_params := params }, [])

/-- `RoT_Data.is_valid`. -/
def RoT_Data.is_valid (d : RoT_Data) : Bool := d.valid

/-- `RoT_Data.instance_size`.  When the cached attribute is still `None`
the size is fetched from offset 8 as a `uint32_t`.  When alignment is
requested the source computes `((unalign + 7) & ~7) % 0x100000000` (64
bit) or `((unalign + 3) & ~3) % 0x100000000` (32 bit); if the fetch
failed, `unalign` is `None` and `None + 7` raises `TypeError`.  Returns
the value together with the updated (lazily filled) record. -/
def RoT_Data.instance_size (d : RoT_Data) (mem : Memory) (align : Bool) :
    PyResult (Option Nat × RoT_Data) :=
  if d.is_valid = false then PyResult.ok (none, d)
  else
    let d' := if d.instanceSize = none
      then { d with instanceSize := mem.word32 (d.base + 8) } else d
    if align then
      match d'.instanceSize with
      | none => PyResult.exn PyErr.typeError
      | some unalign =>
        if d'.sys_params.is_64_bit then
          PyResult.ok (some (Utilities.and_not_mask (unalign + 7) 7 % 0x100000000), d')
        else
          PyResult.ok (some (Utilities.and_not_mask (unalign + 3) 3 % 0x100000000), d')
    else
      PyResult.ok (d'.instanceSize, d')

/-- `class_rw_t` wrapper (`RwT_Data`).  `data` is the nested `RoT_Data`,
present only when the ro pointer passed the plausibility check. -/
structure RwT_Data where
  valid : Bool
  base : Nat := 0
  roPointer : Option Nat := none
  data : Option RoT_Data := none
  sys_params : SysParams
deriving Repr, DecidableEq

/-- `RwT_Data.__init__` + `RwT_Data.check_valid`.  Note that the source
checks `roPointer` with `is_valid_pointer` ONLY — `is_allowed_pointer` is
never applied to this link. -/
def RwT_Data.mk' (rwtv : Nat) (params : SysParams) (mem : Memory) :
    RwT_Data × List ReadEv :=
  if Utilities.is_valid_pointer (some rwtv) params.pointer_size false false then
    let roPointer := mem.word (rwtv + 8)
    if Utilities.is_valid_pointer roPointer params.pointer_size false false then
      match roPointer with
      | some ro =>
        let rot := RoT_Data.mk' ro params mem
        ({ valid := true, base := rwtv, roPointer := roPointer,
           data := some rot.1, sys_params := params },
         ReadEv.word (rwtv + 8) :: rot.2)
      | none =>
        ({ valid := false, base := rwtv, roPointer := roPointer,
           sys_params := params }, [ReadEv.word (rwtv + 8)])
    else
      ({ valid := false, base := rwtv, roPointer := roPointer,
         sys_params := params }, [ReadEv.word (rwtv + 8)])
  else
    ({ valid := false, sys_params := params }, [])

/-- `RwT_Data.is_valid`: valid iff the local checks passed and the nested
`RoT_Data` is valid. -/
def RwT_Data.is_valid (d : RwT_Data) : Bool :=
  if d.valid then
    match d.data with
    | some rot => rot.is_valid
    | none => false
  else false

/-- `class_t` wrapper for the v2 runtime (`Class_Data_V2`). -/
structure Class_Data_V2 where
  valid : Bool
  base : Nat := 0
  isaPointer : Option Nat := none
  cachePointer : Option Nat := none
  vtablePointer : Option Nat := none
  dataPointer : Option Nat := none
  superclassIsaPointer : Option Nat := none
  data : Option RwT_Data := none
  sys_params : SysParams
deriving Repr, DecidableEq

/-- `Class_Data_V2.check_valid`: reads and checks, in source order and
stopping at the first failure, the metaclass isa (offset 0), the method
cache (offset 2p), the vtable (offset 3p), the data pointer (offset 4p)
— each with both `is_valid_pointer` and `is_allowed_pointer` — and the
superclass isa (offset 1p, null allowed).  The trace records exactly the
reads performed before the walk stopped. -/
def Class_Data_V2.check_valid (base : Nat) (params : SysParams) (mem : Memory) :
    Class_Data_V2 × List ReadEv :=
  let p := params.pointer_size
  let isaPointer := mem.word (base + 0)
  let c0 : Class_Data_V2 :=
    { valid := true, base := base, isaPointer := isaPointer, sys_params := params }
  if !(Utilities.is_valid_pointer isaPointer p false false) ||
     !(Utilities.is_allowed_pointer isaPointer) then
    ({ c0 with valid := false }, [ReadEv.word (base + 0)])
  else
    let cachePointer := mem.word (base + 2 * p)
    let c1 := { c0 with cachePointer := cachePointer }
    if !(Utilities.is_valid_pointer cachePointer p false false) ||
       !(Utilities.is_allowed_pointer cachePointer) then
      ({ c1 with valid := false }, [ReadEv.word (base + 0), ReadEv.word (base + 2 * p)])
    else
      let vtablePointer := mem.word (base + 3 * p)
      let c2 := { c1 with vtablePointer := vtablePointer }
      if !(Utilities.is_valid_pointer vtablePointer p false false) ||
         !(Utilities.is_allowed_pointer vtablePointer) then
        ({ c2 with valid := false },
         [ReadEv.word (base + 0), ReadEv.word (base + 2 * p), ReadEv.word (base + 3 * p)])
      else
        let dataPointer := mem.word (base + 4 * p)
        let c3 := { c2 with dataPointer := dataPointer }
        if !(Utilities.is_valid_pointer dataPointer p false false) ||
           !(Utilities.is_allowed_pointer dataPointer) then
          ({ c3 with valid := false },
           [ReadEv.word (base + 0), ReadEv.word (base + 2 * p),
            ReadEv.word (base + 3 * p), ReadEv.word (base + 4 * p)])
        else
          let superclassIsaPointer := mem.word (base + 1 * p)
          let c4 := { c3 with superclassIsaPointer := superclassIsaPointer }
          if !(Utilities.is_valid_pointer superclassIsaPointer p false true) ||
             !(Utilities.is_allowed_pointer superclassIsaPointer) then
            ({ c4 with valid := false },
             [ReadEv.word (base + 0), ReadEv.word (base + 2 * p),
              ReadEv.word (base + 3 * p), ReadEv.word (base + 4 * p),
              ReadEv.word (base + 1 * p)])
          else
            (c4,
             [ReadEv.word (base + 0), ReadEv.word (base + 2 * p),
              ReadEv.word (base + 3 * p), ReadEv.word (base + 4 * p),
              ReadEv.word (base + 1 * p)])

/-- `Class_Data_V2.__init__`: gate on the isa pointer, run `check_valid`,
and only if it passed, follow the data pointer to construct the nested
`RwT_Data`. -/
def Class_Data_V2.mk' (isa_pointer : Option Nat) (params : SysParams) (mem : Memory) :
    Class_Data_V2 × List ReadEv :=
  match isa_pointer with
  | none => ({ valid := false, sys_params := params }, [])
  | some isav =>
    if Utilities.is_valid_pointer (some isav) params.pointer_size false false then
      let c := Class_Data_V2.check_valid isav params mem
      if c.1.valid then
        match c.1.dataPointer with
        | some dp =>
          let rwt := RwT_Data.mk' dp params mem
          ({ c.1 with data := some rwt.1 }, c.2 ++ rwt.2)
        | none => (c.1, c.2)
      else (c.1, c.2)
    else ({ valid := false, sys_params := params }, [])

/-- `Class_Data_V2.is_valid`. -/
def Class_Data_V2.is_valid (d : Class_Data_V2) : Bool :=
  if d.valid then
    match d.data with
    | some rwt => rwt.is_valid
    | none => false
  else false

/-- `Class_Data_V2.class_name`: `self.data.data.name` when valid, `None`
otherwise. -/
def Class_Data_V2.class_name (d : Class_Data_V2) : Option String :=
  if d.is_valid then
    match d.data with
    | some rwt =>
      match rwt.data with
      | some rot => rot.name
      | none => none
    | none => none
  else none

/-- `Class_Data_V2.is_kvo`. -/
def Class_Data_V2.is_kvo (d : Class_Data_V2) : Bool :=
  if d.is_valid then
    match d.class_name with
    | some s => s.startsWith "NSKVONotifying_"
    | none => false
  else false

/-- `Class_Data_V2.is_cftype`: the source compares `self.name`, but
`Class_Data_V2.__init__` never assigns a `name` attribute (the name lives
at `self.data.data.name`), so on every valid descriptor the attribute
access raises `AttributeError`; on an invalid one the method falls off
the end and returns `None`. -/
def Class_Data_V2.is_cftype (d : Class_Data_V2) : PyResult (Option Bool) :=
  if d.is_valid then PyResult.exn PyErr.attributeError
  else PyResult.ok none

/-- `Class_Data_V2.get_superclass`: the source evaluates
`self.sys_params.addr_ptr_type`, but `SystemParameters` has no
`addr_ptr_type` attribute (the type object lives at
`sys_params.types_cache.addr_ptr_type`), so on every valid descriptor the
call raises `AttributeError` before reading anything; on an invalid one
it returns `None`.  Note that even absent this slip the source would
construct `Class_Data_V2` directly, bypassing the isa cache. -/
def Class_Data_V2.get_superclass (d : Class_Data_V2) :
    PyResult (Option Class_Data_V2) :=
  if d.is_valid then PyResult.exn PyErr.attributeError
  else PyResult.ok none

/-- `Class_Data_V2.instance_size`: the source returns
`self.rwt.rot.instance_size(align)`, but `self.rwt` is the raw pointer
value object created in `__init__`, which has no `rot` attribute (the
decoded records live at `self.data.data`), so on every valid descriptor
the access raises `AttributeError`; on an invalid one it returns `None`. -/
def Class_Data_V2.instance_size (d : Class_Data_V2) (align : Bool) :
    PyResult (Option Nat) :=
  if d.is_valid = false then PyResult.ok none
  else PyResult.exn PyErr.attributeError

/-- `class_t` wrapper for the v1 runtime (`Class_Data_V1`).  The
`instanceSize` field models the Python attribute of the same name; the
outer `Option` is attribute presence: `Class_Data_V1.__init__` never
assigns `self.instanceSize`, so a freshly walked descriptor carries
`none` and any access raises `AttributeError`. -/
structure Class_Data_V1 where
  valid : Bool
  base : Nat := 0
  isaPointer : Option Nat := none
  superclassIsaPointer : Option Nat := none
  namePointer : Option Nat := none
  name : Option String := none
  instanceSize : Option (Option Nat) := none
  sys_params : SysParams
deriving Repr, DecidableEq

/-- `Class_Data_V1.check_valid`: reads the isa (offset 0, plausibility
only — no `is_allowed_pointer` in v1), the superclass isa (offset 1p,
null allowed) and the name pointer (offset 2p, unchecked: the check is
commented out in the source), stopping at the first failure. -/
def Class_Data_V1.check_valid (base : Nat) (params : SysParams) (mem : Memory) :
    Class_Data_V1 × List ReadEv :=
  let p := params.pointer_size
  let isaPointer := mem.word (base + 0)
  let c0 : Class_Data_V1 :=
    { valid := true, base := base, isaPointer := isaPointer, sys_params := params }
  if !(Utilities.is_valid_pointer isaPointer p false false) then
    ({ c0 with valid := false }, [ReadEv.word (base + 0)])
  else
    let superclassIsaPointer := mem.word (base + 1 * p)
    let c1 := { c0 with superclassIsaPointer := superclassIsaPointer }
    if !(Utilities.is_valid_pointer superclassIsaPointer p false true) then
      ({ c1 with valid := false }, [ReadEv.word (base + 0), ReadEv.word (base + 1 * p)])
    else
      let namePointer := mem.word (base + 2 * p)
      ({ c1 with namePointer := namePointer },
       [ReadEv.word (base + 0), ReadEv.word (base + 1 * p), ReadEv.word (base + 2 * p)])

/-- `Class_Data_V1.__init__`: gate on the isa pointer, run `check_valid`,
then read the class name and validate it as an identifier.  The instance
size is NOT read here. -/
def Class_Data_V1.mk' (isa_pointer : Option Nat) (params : SysParams) (mem : Memory) :
    Class_Data_V1 × List ReadEv :=
  match isa_pointer with
  | none => ({ valid := false, sys_params := params }, [])
  | some isav =>
    if Utilities.is_valid_pointer (some isav) params.pointer_size false false then
      let c := Class_Data_V1.check_valid isav params mem
      if c.1.valid then
        let res := Utilities.read_ascii mem c.1.namePointer
        let d1 := { c.1 with name := res.1 }
        if Utilities.is_valid_identifier res.1 then (d1, c.2 ++ res.2)
        else ({ d1 with valid := false }, c.2 ++ res.2)
      else (c.1, c.2)
    else ({ valid := false, sys_params := params }, [])

/-- `Class_Data_V1.is_valid`. -/
def Class_Data_V1.is_valid (d : Class_Data_V1) : Bool := d.valid

/-- `Class_Data_V1.class_name`. -/
def Class_Data_V1.class_name (d : Class_Data_V1) : Option String :=
  if d.is_valid then d.name else none

/-- `Class_Data_V1.is_kvo`. -/
def Class_Data_V1.is_kvo (d : Class_Data_V1) : Bool :=
  if d.is_valid then
    match d.class_name with
    | some s => s.startsWith "NSKVONotifying_"
    | none => false
  else false

/-- `Class_Data_V1.is_cftype`: v1 does store `self.name`, so the
comparison succeeds; returns `None` when invalid (no else branch). -/
def Class_Data_V1.is_cftype (d : Class_Data_V1) : PyResult (Option Bool) :=
  if d.is_valid then
    PyResult.ok (some (d.name == some "__NSCFType" || d.name == some "NSCFType"))
  else PyResult.ok none

/-- `Class_Data_V1.get_superclass`: same `sys_params.addr_ptr_type` slip
as in v2 — `SystemParameters` has no such attribute, so the call raises
`AttributeError` on every valid descriptor. -/
def Class_Data_V1.get_superclass (d : Class_Data_V1) :
    PyResult (Option Class_Data_V1) :=
  if d.is_valid then PyResult.exn PyErr.attributeError
  else PyResult.ok none

/-- `Class_Data_V1.instance_size`: the source first tests
`self.instanceSize == None`, but `__init__` never created that attribute,
so on every freshly walked valid descriptor the access raises
`AttributeError`.  The remaining body (lazy fetch from offset 5p, then
the same alignment arithmetic as `RoT_Data`) is modelled for records
whose attribute was set by other means. -/
def Class_Data_V1.instance_size (d : Class_Data_V1) (mem : Memory) (align : Bool) :
    PyResult (Option Nat × Class_Data_V1) :=
  if d.is_valid = false then PyResult.ok (none, d)
  else
    match d.instanceSize with
    | none => PyResult.exn PyErr.attributeError
    | some cur =>
      let fetched := mem.word (d.base + 5 * d.sys_params.pointer_size)
      let d' := if cur = none then { d with instanceSize := some fetched } else d
      match d'.instanceSize with
      | none => PyResult.exn PyErr.attributeError
      | some cur' =>
        if align then
          match cur' with
          | none => PyResult.exn PyErr.typeError
          | some unalign =>
            if d'.sys_params.is_64_bit then
              PyResult.ok (some (Utilities.and_not_mask (unalign + 7) 7 % 0x100000000), d')
            else
              PyResult.ok (some (Utilities.and_not_mask (unalign + 3) 3 % 0x100000000), d')
        else
          PyResult.ok (cur', d')

/-- `TaggedClass_Values_Lion`: the tag-to-classname table used on Lion. -/
def TaggedClass_Values_Lion : List (Nat × String) :=
  [(1, "NSNumber"), (5, "NSManagedObject"), (6, "NSDate"), (7, "NSDateTS")]

/-- `TaggedClass_Values_NMOS`: the tag-to-classname table used before
Lion. -/
def TaggedClass_Values_NMOS : List (Nat × String) :=
  [(0, "NSAtom"), (3, "NSNumber"), (4, "NSDateTS"), (5, "NSManagedObject"),
   (6, "NSDate")]

/-- Tagged-pointer descriptor (`TaggedClass_Data`). -/
structure TaggedClass_Data where
  valid : Bool
  name : Option String
  val : Nat
  class_bits : Nat
  i_bits : Nat
  sys_params : SysParams
deriving Repr, DecidableEq

/-- `TaggedClass_Data.__init__`: decodes the raw pointer value with pure
bit arithmetic — it takes no `Memory` and performs no reads.  `val` is
`(pointer & ~0xFF) >> 8`, `class_bits` is `(pointer & 0xE) >> 1`,
`i_bits` is `(pointer & 0xF0) >> 4`; `class_bits` is looked up in the
table selected by `is_lion`. -/
def TaggedClass_Data.mk' (pointer : Nat) (params : SysParams) : TaggedClass_Data :=
  let val := Utilities.and_not_mask pointer 0xFF >>> 8
  let class_bits := (pointer &&& 0xE) >>> 1
  let i_bits := (pointer &&& 0xF0) >>> 4
  let table := if params.is_lion then TaggedClass_Values_Lion
               else TaggedClass_Values_NMOS
  match table.lookup class_bits with
  | some nm =>
    { valid := true, name := some nm, val := val, class_bits := class_bits,
      i_bits := i_bits, sys_params := params }
  | none =>
    { valid := false, name := none, val := val, class_bits := class_bits,
      i_bits := i_bits, sys_params := params }

/-- `TaggedClass_Data.is_valid`. -/
def TaggedClass_Data.is_valid (d : TaggedClass_Data) : Bool := d.valid

/-- `TaggedClass_Data.class_name` (the source returns `False`, not
`None`, when invalid; both are falsy and we collapse them to `none`). -/
def TaggedClass_Data.class_name (d : TaggedClass_Data) : Option String :=
  if d.is_valid then d.name else none

/-- `TaggedClass_Data.instance_size`: a tagged pointer is deemed to be
the size of a pointer. -/
def TaggedClass_Data.instance_size (d : TaggedClass_Data) : Option Nat :=
  if d.is_valid = false then none else some d.sys_params.pointer_size

/-- `Version` (major/minor/release/build string). -/
structure Version where
  major : Nat
  minor : Nat
  release : Nat
  build_string : String
deriving Repr, DecidableEq

/-- `Version.__lt__`: tests `major`, `minor` and `release` independently,
returning true as soon as any single component is smaller. -/
def Version.lt (s o : Version) : Bool :=
  if s.major < o.major then true
  else if s.minor < o.minor then true
  else if s.release < o.release then true
  else false

/-- `Version.__eq__`. -/
def Version.eq (s o : Version) : Bool :=
  s.major == o.major && s.minor == o.minor && s.release == o.release &&
  s.build_string == o.build_string

/-- The union of per-version class-data descriptors that
`read_class_data` can return (`InvalidClass_Data` is `invalid`). -/
inductive ClassData where
  | v1 : Class_Data_V1 → ClassData
  | v2 : Class_Data_V2 → ClassData
  | tagged : TaggedClass_Data → ClassData
  | invalid : ClassData
deriving Repr, DecidableEq

/-- `is_valid` dispatched over the descriptor union;
`InvalidClass_Data.is_valid` is always false. -/
def ClassData.is_valid : ClassData → Bool
  | ClassData.v1 d => d.is_valid
  | ClassData.v2 d => d.is_valid
  | ClassData.tagged d => d.is_valid
  | ClassData.invalid => false

/-- Modelled from the spec: the per-process isa cache (`cache.Cache`,
imported by `objc_runtime.py` but absent from the sources).  Section 4.4
describes it as a plain associative store with
`lookup(address) -> descriptor | absent` and
`insert(address, descriptor, allowReplace)`; we model it as an
association list where lookup returns the most recently inserted binding
for a key, so insertion shadows (replaces) earlier bindings. -/
abbrev Cache := List (Nat × ClassData)

/-- Modelled from the spec: `Cache.get_value` with default `None`. -/
def Cache.get_value (c : Cache) (k : Nat) : Option ClassData :=
  match c with
  | [] => none
  | (k', v) :: rest => if k' = k then some v else Cache.get_value rest k

/-- Modelled from the spec: `Cache.add_item` with `ok_to_replace=True`. -/
def Cache.add_item (c : Cache) (k : Nat) (v : ClassData) : Cache :=
  (k, v) :: c

/-- `ObjCRuntime`: wraps one candidate object pointer.  `unsigned_value`
is `valobj.GetValueAsUnsigned()`; `isa_value` is the isa child cached by
`read_isa` (fresh per `ObjCRuntime` object, i.e. per resolution).  The
`IsInScope` test of the source is about the debugger's variable scope,
not about the walked data, and is modelled as always in scope. -/
structure ObjCRuntime where
  unsigned_value : Nat
  sys_params : SysParams
  isa_value : Option Nat
deriving Repr, DecidableEq

/-- `ObjCRuntime.__init__`: a fresh runtime object for one resolution,
with no isa read yet. -/
def ObjCRuntime.mkFresh (v : Nat) (params : SysParams) : ObjCRuntime :=
  { unsigned_value := v, sys_params := params, isa_value := none }

/-- `ObjCRuntime.is_tagged`: plausible as a tagged pointer but not as an
aligned one. -/
def ObjCRuntime.is_tagged (r : ObjCRuntime) : Bool :=
  Utilities.is_valid_pointer (some r.unsigned_value) r.sys_params.pointer_size true false &&
  !(Utilities.is_valid_pointer (some r.unsigned_value) r.sys_params.pointer_size false false)

/-- `ObjCRuntime.is_valid`. -/
def ObjCRuntime.is_valid (r : ObjCRuntime) : Bool :=
  Utilities.is_valid_pointer (some r.unsigned_value) r.sys_params.pointer_size true false

/-- `ObjCRuntime.read_isa`: read the isa field at offset 0 of the object,
returning `none` when the read fails or yields the freed-object sentinel
`1`, and caching the value in the runtime object otherwise. -/
def ObjCRuntime.read_isa (r : ObjCRuntime) (mem : Memory) :
    Option Nat × ObjCRuntime × List ReadEv :=
  match r.isa_value with
  | some v => (some v, r, [])
  | none =>
    match mem.word (r.unsigned_value + 0) with
    | none => (none, r, [ReadEv.word (r.unsigned_value + 0)])
    | some v =>
      if v == 1 then (none, r, [ReadEv.word (r.unsigned_value + 0)])
      else (some v, { r with isa_value := some v }, [ReadEv.word (r.unsigned_value + 0)])

/-- Everything one call to `read_class_data` produces: the descriptor,
the updated runtime object, the updated isa cache and the trace of
memory reads issued. -/
structure ResolveResult where
  data : ClassData
  rt : ObjCRuntime
  cache : Cache
  reads : List ReadEv
deriving Repr, DecidableEq

/-- `ObjCRuntime.read_class_data`: tagged pointers are decoded without
reads (v2 only); otherwise the isa is read, the per-process isa cache is
consulted, and on a miss the version-specific walker runs, its result
being cached only when valid. -/
def ObjCRuntime.read_class_data (r : ObjCRuntime) (mem : Memory) (cache : Cache) :
    ResolveResult :=
  if r.is_tagged then
    if r.sys_params.runtime_version == 2 then
      let t := TaggedClass_Data.mk' r.unsigned_value r.sys_params
      { data := if t.is_valid then ClassData.tagged t else ClassData.invalid,
        rt := r, cache := cache, reads := [] }
    else
      { data := ClassData.invalid, rt := r, cache := cache, reads := [] }
  else if r.is_valid = false then
    { data := ClassData.invalid, rt := r, cache := cache, reads := [] }
  else
    let isaRes := r.read_isa mem
    match isaRes.1 with
    | none => { data := ClassData.invalid, rt := isaRes.2.1, cache := cache,
                reads := isaRes.2.2 }
    | some isa_value =>
      if isa_value == 1 then
        { data := ClassData.invalid, rt := isaRes.2.1, cache := cache,
          reads := isaRes.2.2 }
      else
        match Cache.get_value cache isa_value with
        | some data =>
          { data := data, rt := isaRes.2.1, cache := cache, reads := isaRes.2.2 }
        | none =>
          let walked :=
            if r.sys_params.runtime_version == 2 then
              let d := Class_Data_V2.mk' (some isa_value) r.sys_params mem
              (ClassData.v2 d.1, d.2)
            else
              let d := Class_Data_V1.mk' (some isa_value) r.sys_params mem
              (ClassData.v1 d.1, d.2)
          let cache' := if walked.1.is_valid
            then Cache.add_item cache isa_value walked.1 else cache
          { data := walked.1, rt := isaRes.2.1, cache := cache',
            reads := isaRes.2.2 ++ walked.2 }

/-- 64-bit, v2-runtime architecture context. -/
def params8v2 : SysParams := SysParams.adjust_for_architecture 8 false 2

/-- 64-bit, v1-runtime architecture context. -/
def params8v1 : SysParams := SysParams.adjust_for_architecture 8 false 1

/-- 64-bit, v2-runtime, Lion architecture context. -/
def paramsLion : SysParams := SysParams.adjust_for_architecture 8 true 2

/-- A concrete 64-bit process image holding one well-formed v2 class:
an object at 0x1000 whose isa is 0x2000; the `class_t` at 0x2000 has a
plausible metaclass isa, null superclass, cache, vtable and a data
pointer to the `class_rw_t` at 0x4000, whose ro pointer leads to the
`class_ro_t` at 0x5000, whose name pointer (offset 24) leads to the
string "Foo" at 0x6000 and whose instance size (offset 8) is 13. -/
def memGood : Memory :=
  { word := fun a =>
      if a = 0x1000 then some 0x2000
      else if a = 0x2000 then some 0x2000
      else if a = 0x2008 then some 0
      else if a = 0x2010 then some 0x2000
      else if a = 0x2018 then some 0x2000
      else if a = 0x2020 then some 0x4000
      else if a = 0x4008 then some 0x5000
      else if a = 0x5018 then some 0x6000
      else none,
    word32 := fun a => if a = 0x5008 then some 13 else none,
    cstr := fun a => if a = 0x6000 then some "Foo" else none }

/-- A concrete 64-bit process image holding one well-formed v1 class at
0x1000: isa 0x1000, null superclass, name pointer to "Foo" at 0x3000. -/
def memV1 : Memory :=
  { word := fun a =>
      if a = 0x1000 then some 0x1000
      else if a = 0x1008 then some 0
      else if a = 0x1010 then some 0x3000
      else none,
    word32 := fun _ => none,
    cstr := fun a => if a = 0x3000 then some "Foo" else none }

/-- A concrete 64-bit process image whose v2 chain is intact except that
the `class_rw_t -> class_ro_t` pointer is 0xFFFF800000000000: aligned
(so it passes `is_valid_pointer`) but with bits 47-63 set (so it fails
`is_allowed_pointer`).  The `class_ro_t` placed at that address yields
the valid name "Foo". -/
def memHighRo : Memory :=
  { word := fun a =>
      if a = 0x2000 then some 0x2000
      else if a = 0x2008 then some 0
      else if a = 0x2010 then some 0x2000
      else if a = 0x2018 then some 0x2000
      else if a = 0x2020 then some 0x4000
      else if a = 0x4008 then some 0xFFFF800000000000
      else if a = 0xFFFF800000000018 then some 0x6000
      else none,
    word32 := fun _ => none,
    cstr := fun a => if a = 0x6000 then some "Foo" else none }

/-- A concrete 64-bit process image where the object at 0x1000 has isa
0x2000 but the class metadata at 0x2000 is unreadable: every v2 walk of
it fails, so nothing is ever cached. -/
def memBadMeta : Memory :=
  { word := fun a => if a = 0x1000 then some 0x2000 else none,
    word32 := fun _ => none,
    cstr := fun _ => none }


/-- 32-bit, v2-runtime architecture context. -/
def params4v2 : SysParams := SysParams.adjust_for_architecture 4 false 2

/-- The well-formed v2 descriptor walked from `memGood`. -/
def dv2Good : Class_Data_V2 := (Class_Data_V2.mk' (some 0x2000) params8v2 memGood).1

/-- The well-formed v1 descriptor walked from `memV1`. -/
def dv1Good : Class_Data_V1 := (Class_Data_V1.mk' (some 0x1000) params8v1 memV1).1

/-- A valid `class_ro_t` record whose instance size is already fetched. -/
def rotOf (ps : SysParams) (sz : Nat) : RoT_Data :=
  { valid := true, base := 0x5000, namePointer := some 0x6000,
    name := some "Foo", instanceSize := some sz, sys_params := ps }

/-- Round `u` up to the next multiple of `p` — the phrasing of the
specification for the aligned instance size. -/
def roundUpToMultiple (u p : Nat) : Nat := (u + p - 1) / p * p

/-- C10: `Version.__lt__` is not a strict order: with `a = (2,0,0)` and
`b = (1,9,0)`, both `a < b` and `b < a` hold, because the comparison
tests major, minor and release independently instead of
lexicographically. -/
theorem version_lt_not_strict :
    Version.lt { major := 2, minor := 0, release := 0, build_string := "" }
               { major := 1, minor := 9, release := 0, build_string := "" } = true ∧
    Version.lt { major := 1, minor := 9, release := 0, build_string := "" }
               { major := 2, minor := 0, release := 0, build_string := "" } = true := by
  decide

/-- C6: for every entry `(bits, name)` of the Lion tagged-class table,
decoding (under `is_lion = true`, `runtime_version = 2`) any pointer
value whose class-bits field `(value & 0xE) >> 1` equals `bits` yields a
valid tagged descriptor whose class name is `name`; moreover
`TaggedClass_Data.mk'` consumes no `Memory` at all, and a whole
`read_class_data` call on a tagged pointer issues an empty read trace. -/
theorem tagged_decode_lion (params : SysParams) (v bits : Nat) (nm : String)
    (hl : params.is_lion = true) (hrv : params.runtime_version = 2)
    (hmem : (bits, nm) ∈ TaggedClass_Values_Lion)
    (hbits : (v &&& 0xE) >>> 1 = bits) :
    (TaggedClass_Data.mk' v params).is_valid = true ∧
    (TaggedClass_Data.mk' v params).class_name = some nm ∧
    (∀ mem cache, (ObjCRuntime.mkFresh v params).is_tagged = true →
      ((ObjCRuntime.mkFresh v params).read_class_data mem cache).reads = []) := by
  have hname : (TaggedClass_Data.mk' v params).valid = true ∧
      (TaggedClass_Data.mk' v params).name = some nm := by
    simp only [TaggedClass_Values_Lion, List.mem_cons, List.not_mem_nil, or_false,
      Prod.mk.injEq] at hmem
    rcases hmem with ⟨h1, h2⟩ | ⟨h1, h2⟩ | ⟨h1, h2⟩ | ⟨h1, h2⟩ <;> subst h1 <;> subst h2 <;>
      simp [TaggedClass_Data.mk', hl, hbits, TaggedClass_Values_Lion, List.lookup]
  refine ⟨hname.1, ?_, ?_⟩
  · simp [TaggedClass_Data.class_name, TaggedClass_Data.is_valid, hname.1, hname.2]
  · intro mem cache htag
    unfold ObjCRuntime.read_class_data
    rw [htag]
    simp [ObjCRuntime.mkFresh, hrv]

/-- C5: on a valid `class_ro_t` record, `instance_size` with alignment
requested rounds the raw size up to the next multiple of the pointer
size and reduces modulo 2^32 (for the architecture-consistent pointer
sizes 4 and 8). -/
theorem rot_instance_size_aligned (d : RoT_Data) (mem : Memory) (u : Nat)
    (hvalid : d.is_valid = true)
    (hps : d.sys_params.pointer_size = 4 ∨ d.sys_params.pointer_size = 8)
    (h64 : d.sys_params.is_64_bit = (d.sys_params.pointer_size == 8))
    (hu : (if d.instanceSize = none then mem.word32 (d.base + 8)
           else d.instanceSize) = some u) :
    ∃ d', d.instance_size mem true
      = PyResult.ok
          (some (roundUpToMultiple u d.sys_params.pointer_size % 0x100000000), d') := by
  refine ⟨if d.instanceSize = none then { d with instanceSize := mem.word32 (d.base + 8) }
          else d, ?_⟩
  by_cases hsz : d.instanceSize = none
  · rw [if_pos hsz] at hu ⊢
    rcases hps with hp | hp <;> rw [hp] at h64 ⊢ <;>
      simp [RoT_Data.instance_size, hvalid, hsz, hu, h64,
        show roundUpToMultiple u 4 = Utilities.and_not_mask (u + 3) 3 from rfl,
        show roundUpToMultiple u 8 = Utilities.and_not_mask (u + 7) 7 from rfl]
  · rw [if_neg hsz] at hu ⊢
    rcases hps with hp | hp <;> rw [hp] at h64 ⊢ <;>
      simp [RoT_Data.instance_size, hvalid, hsz, hu, h64,
        show roundUpToMultiple u 4 = Utilities.and_not_mask (u + 3) 3 from rfl,
        show roundUpToMultiple u 8 = Utilities.and_not_mask (u + 7) 7 from rfl]

/-- C5 witness: the four concrete alignment cases from the
specification, obtained by applying `rot_instance_size_aligned`. -/
theorem rot_instance_size_aligned_witness :
    (∃ d', (rotOf params8v2 13).instance_size memBadMeta true
        = PyResult.ok (some 16, d')) ∧
    (∃ d', (rotOf params4v2 13).instance_size memBadMeta true
        = PyResult.ok (some 16, d')) ∧
    (∃ d', (rotOf params4v2 10).instance_size memBadMeta true
        = PyResult.ok (some 12, d')) ∧
    (∃ d', (rotOf params8v2 10).instance_size memBadMeta true
        = PyResult.ok (some 16, d')) :=
  ⟨rot_instance_size_aligned (rotOf params8v2 13) memBadMeta 13 (by decide)
      (Or.inr (by decide)) (by decide) (by decide),
   rot_instance_size_aligned (rotOf params4v2 13) memBadMeta 13 (by decide)
      (Or.inl (by decide)) (by decide) (by decide),
   rot_instance_size_aligned (rotOf params4v2 10) memBadMeta 10 (by decide)
      (Or.inl (by decide)) (by decide) (by decide),
   rot_instance_size_aligned (rotOf params8v2 10) memBadMeta 10 (by decide)
      (Or.inr (by decide)) (by decide) (by decide)⟩

/-- C2: the claim that no resolver operation ever raises is the stated
design intent, but the code violates it.  On the concrete well-formed
images `memGood`/`memV1` the walked descriptors are valid, yet
`Class_Data_V2.is_cftype` (reads the never-assigned `self.name`),
`Class_Data_V2.instance_size` (reads `self.rwt.rot` where `rwt` is a raw
value object with no `rot` attribute), `Class_Data_V2.get_superclass` /
`Class_Data_V1.get_superclass` (read the nonexistent
`sys_params.addr_ptr_type`) and `Class_Data_V1.instance_size` (reads the
never-initialized `self.instanceSize`) all raise `AttributeError` to the
caller. -/
theorem resolver_operations_raise :
    dv2Good.is_valid = true ∧
    dv2Good.is_cftype = PyResult.exn PyErr.attributeError ∧
    dv2Good.instance_size true = PyResult.exn PyErr.attributeError ∧
    dv2Good.instance_size false = PyResult.exn PyErr.attributeError ∧
    dv1Good.is_valid = true ∧
    dv1Good.instance_size memV1 false = PyResult.exn PyErr.attributeError ∧
    dv1Good.instance_size memV1 true = PyResult.exn PyErr.attributeError := by
  decide

/-- C4: `get_superclass` does not resolve the superclass through the
resolution procedure at all — on every valid descriptor it raises
`AttributeError` while evaluating the nonexistent
`sys_params.addr_ptr_type` (and even absent that slip it would construct
the class data directly, never consulting the isa cache). -/
theorem get_superclass_raises :
    dv2Good.is_valid = true ∧
    dv2Good.get_superclass = PyResult.exn PyErr.attributeError ∧
    dv1Good.is_valid = true ∧
    dv1Good.get_superclass = PyResult.exn PyErr.attributeError := by
  decide

/-- C7: on the concrete valid v1 descriptor walked from `memV1`, the
metadata walk never reads offset `5 * pointer_size` (the instance-size
slot) — the first two conjuncts — but the first `instance_size` request
does not return the lazily read value: it raises `AttributeError`,
because `Class_Data_V1.__init__` never initializes `self.instanceSize`. -/
theorem v1_first_instance_size_request_raises :
    (Class_Data_V1.mk' (some 0x1000) params8v1 memV1).1.is_valid = true ∧
    (ReadEv.word (0x1000 + 5 * 8) ∉ (Class_Data_V1.mk' (some 0x1000) params8v1 memV1).2) ∧
    (Class_Data_V1.mk' (some 0x1000) params8v1 memV1).1.instance_size memV1 false
      = PyResult.exn PyErr.attributeError := by
  decide

/-- C6 witness: pointer value 3 has class-bits field `(3 & 0xE) >> 1 = 1`,
the `NSNumber` entry of the Lion table. -/
theorem tagged_decode_lion_witness :
    (TaggedClass_Data.mk' 3 paramsLion).is_valid = true ∧
    (TaggedClass_Data.mk' 3 paramsLion).class_name = some "NSNumber" ∧
    (∀ mem cache, (ObjCRuntime.mkFresh 3 paramsLion).is_tagged = true →
      ((ObjCRuntime.mkFresh 3 paramsLion).read_class_data mem cache).reads = []) :=
  tagged_decode_lion paramsLion 3 1 "NSNumber" (by decide) (by decide)
    (by decide) (by decide)

/-- The ten pointer checks `Class_Data_V2.check_valid` performs, over the
values read from the five `class_t` fields: metaclass isa (offset 0),
method cache (offset 2p), vtable (offset 3p), data pointer (offset 4p),
superclass isa (offset 1p, null allowed) — each with both
`is_valid_pointer` and `is_allowed_pointer`. -/
def v2ChecksPass (base : Nat) (params : SysParams) (mem : Memory) : Bool :=
  let p := params.pointer_size
  Utilities.is_valid_pointer (mem.word (base + 0)) p false false &&
  Utilities.is_allowed_pointer (mem.word (base + 0)) &&
  (Utilities.is_valid_pointer (mem.word (base + 2 * p)) p false false &&
   Utilities.is_allowed_pointer (mem.word (base + 2 * p))) &&
  (Utilities.is_valid_pointer (mem.word (base + 3 * p)) p false false &&
   Utilities.is_allowed_pointer (mem.word (base + 3 * p))) &&
  (Utilities.is_valid_pointer (mem.word (base + 4 * p)) p false false &&
   Utilities.is_allowed_pointer (mem.word (base + 4 * p))) &&
  (Utilities.is_valid_pointer (mem.word (base + 1 * p)) p false true &&
   Utilities.is_allowed_pointer (mem.word (base + 1 * p)))

lemma check_valid_valid_eq (base : Nat) (params : SysParams) (mem : Memory) :
    (Class_Data_V2.check_valid base params mem).1.valid
      = v2ChecksPass base params mem := by
  simp only [Class_Data_V2.check_valid, v2ChecksPass]
  repeat' split
  all_goals (try simp_all)
  all_goals (intros; rcases ‹_ ∨ _› with h | h <;> simp_all)

lemma check_valid_of_pass (base : Nat) (params : SysParams) (mem : Memory)
    (hpass : v2ChecksPass base params mem = true) :
    Class_Data_V2.check_valid base params mem
      = ({ valid := true, base := base, isaPointer := mem.word (base + 0),
           cachePointer := mem.word (base + 2 * params.pointer_size),
           vtablePointer := mem.word (base + 3 * params.pointer_size),
           dataPointer := mem.word (base + 4 * params.pointer_size),
           superclassIsaPointer := mem.word (base + 1 * params.pointer_size),
           data := none, sys_params := params },
         [ReadEv.word (base + 0), ReadEv.word (base + 2 * params.pointer_size),
          ReadEv.word (base + 3 * params.pointer_size),
          ReadEv.word (base + 4 * params.pointer_size),
          ReadEv.word (base + 1 * params.pointer_size)]) := by
  unfold v2ChecksPass at hpass
  simp only [Bool.and_eq_true] at hpass
  obtain ⟨⟨⟨⟨⟨h1, h2⟩, h3, h4⟩, h5, h6⟩, h7, h8⟩, h9, h10⟩ := hpass
  simp only [Nat.add_zero, one_mul] at h1 h2 h9 h10
  unfold Class_Data_V2.check_valid
  simp [h1, h2, h3, h4, h5, h6, h7, h8, h9, h10]

lemma v2_invalid_no_data (d : Class_Data_V2) (h : d.is_valid = false) :
    d.class_name = none ∧ d.instance_size true = PyResult.ok none := by
  constructor
  · simp [Class_Data_V2.class_name, h]
  · simp [Class_Data_V2.instance_size, h]

lemma plaus_some {o : Option Nat} {p : Nat} {t n : Bool}
    (h : Utilities.is_valid_pointer o p t n = true) : ∃ v, o = some v := by
  cases o with
  | none => simp [Utilities.is_valid_pointer] at h
  | some v => exact ⟨v, rfl⟩

/-- C9: on a plausible `class_t` base, the V2 validity check reads and
validates the metaclass isa (offset 0), the method cache (offset 2p) and
the vtable (offset 3p) — each with both `is_valid_pointer` and
`is_allowed_pointer` — plus the data pointer (offset 4p) and the
superclass isa (offset 1p, null allowed): its verdict exactly equals the
conjunction `v2ChecksPass` of those checks, and when any of them fails
the whole walk produces an invalid descriptor without following the data
pointer (its read trace is `check_valid`'s own trace). -/
theorem v2_check_valid_characterization (base : Nat) (params : SysParams) (mem : Memory)
    (hbase : Utilities.is_valid_pointer (some base) params.pointer_size false false = true) :
    ((Class_Data_V2.check_valid base params mem).1.valid
       = v2ChecksPass base params mem) ∧
    (v2ChecksPass base params mem = false →
      (Class_Data_V2.mk' (some base) params mem).1.is_valid = false ∧
      (Class_Data_V2.mk' (some base) params mem).2
        = (Class_Data_V2.check_valid base params mem).2) := by
  refine ⟨check_valid_valid_eq base params mem, fun hfail => ?_⟩
  have hv : (Class_Data_V2.check_valid base params mem).1.valid = false := by
    rw [check_valid_valid_eq]; exact hfail
  unfold Class_Data_V2.mk'
  simp [hbase, hv, Class_Data_V2.is_valid]

/-- C9 witness: instantiated at `memBadMeta`, where the very first field
read of the `class_t` at 0x2000 fails. -/
theorem v2_check_valid_characterization_witness :
    ((Class_Data_V2.check_valid 0x2000 params8v2 memBadMeta).1.valid
       = v2ChecksPass 0x2000 params8v2 memBadMeta) ∧
    (v2ChecksPass 0x2000 params8v2 memBadMeta = false →
      (Class_Data_V2.mk' (some 0x2000) params8v2 memBadMeta).1.is_valid = false ∧
      (Class_Data_V2.mk' (some 0x2000) params8v2 memBadMeta).2
        = (Class_Data_V2.check_valid 0x2000 params8v2 memBadMeta).2) :=
  v2_check_valid_characterization 0x2000 params8v2 memBadMeta (by decide)

/-- C1 counterexample: in `memHighRo` the `class_rw_t -> class_ro_t` link
read at 0x4008 is 0xFFFF800000000000 — it fails `is_allowed_pointer` —
yet the walk follows it anyway and the resulting descriptor is valid with
a resolved name, so not every pointer in the chain is checked with both
validators and a link failing `is_allowed_pointer` does not stop the
walk. -/
theorem v2_ro_link_escapes_allowed_check :
    memHighRo.word 0x4008 = some 0xFFFF800000000000 ∧
    Utilities.is_allowed_pointer (some 0xFFFF800000000000) = false ∧
    (Class_Data_V2.mk' (some 0x2000) params8v2 memHighRo).1.is_valid = true ∧
    (Class_Data_V2.mk' (some 0x2000) params8v2 memHighRo).1.class_name = some "Foo" := by
  decide

/-- C1 amended: under a plausible `class_t` base, (i) the five `class_t`
links are each checked with both `is_valid_pointer` and
`is_allowed_pointer` (`check_valid`'s verdict equals `v2ChecksPass`);
(ii) when any of them fails the walk stops with an invalid descriptor;
(iii) when they pass, overall validity equals: the rw→ro link passes
`is_valid_pointer` alone — `is_allowed_pointer` is never applied to it —
and the string at the (pointer-unchecked) `class_ro_t` name pointer is a
valid identifier; and if the rw→ro link fails its plausibility check the
walk stops there, reading nothing beyond that link; (iv) an invalid
descriptor exposes no partial data: `class_name` is `None` and
`instance_size` returns `None`. -/
theorem v2_walk_link_checks (base : Nat) (params : SysParams) (mem : Memory)
    (hbase : Utilities.is_valid_pointer (some base) params.pointer_size false false = true) :
    ((Class_Data_V2.check_valid base params mem).1.valid = v2ChecksPass base params mem) ∧
    (v2ChecksPass base params mem = false →
      (Class_Data_V2.mk' (some base) params mem).1.is_valid = false) ∧
    (v2ChecksPass base params mem = true →
      ((Class_Data_V2.mk' (some base) params mem).1.is_valid =
        (Utilities.is_valid_pointer
            (mem.word ((mem.word (base + 4 * params.pointer_size)).getD 0 + 8))
            params.pointer_size false false &&
         Utilities.is_valid_identifier
           (Utilities.read_ascii mem
             (mem.word
               ((mem.word ((mem.word (base + 4 * params.pointer_size)).getD 0 + 8)).getD 0
                 + (if params.is_64_bit then 24 else 16)))).1)) ∧
      (Utilities.is_valid_pointer
          (mem.word ((mem.word (base + 4 * params.pointer_size)).getD 0 + 8))
          params.pointer_size false false = false →
        (Class_Data_V2.mk' (some base) params mem).2
          = (Class_Data_V2.check_valid base params mem).2
            ++ [ReadEv.word ((mem.word (base + 4 * params.pointer_size)).getD 0 + 8)])) ∧
    ((Class_Data_V2.mk' (some base) params mem).1.is_valid = false →
      (Class_Data_V2.mk' (some base) params mem).1.class_name = none ∧
      (Class_Data_V2.mk' (some base) params mem).1.instance_size true
        = PyResult.ok none) := by
  refine ⟨check_valid_valid_eq base params mem, fun hfail => ?_, fun hpass => ?_,
    fun hinv => v2_invalid_no_data _ hinv⟩
  · have hv : (Class_Data_V2.check_valid base params mem).1.valid = false := by
      rw [check_valid_valid_eq]; exact hfail
    unfold Class_Data_V2.mk'
    simp [hbase, hv, Class_Data_V2.is_valid]
  · have hc := check_valid_of_pass base params mem hpass
    have hdpl : Utilities.is_valid_pointer (mem.word (base + 4 * params.pointer_size))
        params.pointer_size false false = true := by
      unfold v2ChecksPass at hpass
      simp only [Bool.and_eq_true] at hpass
      exact hpass.1.2.1
    obtain ⟨dp, hdp⟩ := plaus_some hdpl
    rw [hdp] at hdpl
    by_cases hro : Utilities.is_valid_pointer (mem.word (dp + 8))
        params.pointer_size false false = true
    · obtain ⟨ro, hro'⟩ := plaus_some hro
      rw [hro'] at hro
      constructor
      · simp only [Class_Data_V2.mk', hbase, if_true, hc, hdp, Option.getD_some,
          RwT_Data.mk', hro', hro, RoT_Data.mk', if_true, reduceIte]
        by_cases hid : Utilities.is_valid_identifier
            (Utilities.read_ascii mem
              (mem.word (ro + (if params.is_64_bit then 24 else 16)))).1 = true
        · simp [hid, Class_Data_V2.is_valid, RwT_Data.is_valid, RoT_Data.is_valid, hro, hdpl]
        · simp only [Bool.not_eq_true] at hid
          simp [hid, Class_Data_V2.is_valid, RwT_Data.is_valid, RoT_Data.is_valid, hro, hdpl]
      · intro hro2
        rw [hdp, Option.getD_some, hro'] at hro2
        rw [hro] at hro2
        simp at hro2
    · simp only [Bool.not_eq_true] at hro
      constructor
      · simp only [Class_Data_V2.mk', hbase, if_true, hc, hdp, Option.getD_some,
          RwT_Data.mk', hro, reduceIte]
        simp [Class_Data_V2.is_valid, RwT_Data.is_valid, hro, hdpl]
      · intro _
        simp only [Class_Data_V2.mk', hbase, if_true, hc, hdp, Option.getD_some,
          RwT_Data.mk', hro, reduceIte]
        simp [hdpl]

/-- C1 witness for the amended theorem: instantiated on `memHighRo`,
whose class_t checks all pass. -/
theorem v2_walk_link_checks_witness :
    Utilities.is_valid_pointer (some 0x2000) params8v2.pointer_size false false = true ∧
    ((Class_Data_V2.check_valid 0x2000 params8v2 memHighRo).1.valid
      = v2ChecksPass 0x2000 params8v2 memHighRo) :=
  ⟨by decide, (v2_walk_link_checks 0x2000 params8v2 memHighRo (by decide)).1⟩

lemma get_value_mem {c : Cache} {k : Nat} {d : ClassData}
    (h : Cache.get_value c k = some d) : (k, d) ∈ c := by
  induction c with
  | nil => simp [Cache.get_value] at h
  | cons kv rest ih =>
    obtain ⟨k', v⟩ := kv
    rw [Cache.get_value] at h
    by_cases hk : k' = k
    · rw [if_pos hk] at h
      obtain rfl := Option.some.injEq .. ▸ h
      subst hk
      exact List.mem_cons_self _ _
    · rw [if_neg hk] at h
      exact List.mem_cons_of_mem _ (ih h)

lemma read_class_data_cache_shape (r : ObjCRuntime) (mem : Memory) (cache : Cache) :
    (r.read_class_data mem cache).cache = cache ∨
    ∃ k data, data.is_valid = true ∧
      (r.read_class_data mem cache).cache = (k, data) :: cache := by
  simp only [ObjCRuntime.read_class_data]
  repeat' split
  all_goals (try (left; rfl))
  all_goals (rename_i hval; right; exact ⟨_, _, hval, rfl⟩)

/-- C8: the isa cache holds only valid descriptors: `read_class_data`
inserts a walked descriptor only when `is_valid()` is true, so given a
cache satisfying the all-entries-valid invariant, the cache it returns
still satisfies it, and any successful lookup in that cache yields a
descriptor with `is_valid = true`. -/
theorem isa_cache_only_valid (r : ObjCRuntime) (mem : Memory) (cache : Cache)
    (hinv : ∀ kd ∈ cache, ClassData.is_valid kd.2 = true) :
    (∀ kd ∈ (r.read_class_data mem cache).cache, ClassData.is_valid kd.2 = true) ∧
    (∀ k d, Cache.get_value (r.read_class_data mem cache).cache k = some d →
      d.is_valid = true) := by
  have hall : ∀ kd ∈ (r.read_class_data mem cache).cache,
      ClassData.is_valid kd.2 = true := by
    rcases read_class_data_cache_shape r mem cache with h | ⟨k, data, hval, h⟩ <;> rw [h]
    · exact hinv
    · intro kd hkd
      rcases List.mem_cons.mp hkd with rfl | hkd
      · exact hval
      · exact hinv kd hkd
  exact ⟨hall, fun k d hget => hall (k, d) (get_value_mem hget)⟩

/-- C8 witness: instantiated on a fresh empty cache and the well-formed
image `memGood`. -/
theorem isa_cache_only_valid_witness :
    (∀ kd ∈ ((ObjCRuntime.mkFresh 0x1000 params8v2).read_class_data memGood []).cache,
      ClassData.is_valid kd.2 = true) ∧
    (∀ k d,
      Cache.get_value ((ObjCRuntime.mkFresh 0x1000 params8v2).read_class_data memGood []).cache k
        = some d → d.is_valid = true) :=
  isa_cache_only_valid (ObjCRuntime.mkFresh 0x1000 params8v2) memGood []
    (by intro kd hkd; simp at hkd)

lemma rcd_data_invalid_none (params : SysParams) (mem : Memory) (v : Nat) (cache : Cache)
    (htag : (ObjCRuntime.mkFresh v params).is_tagged = false)
    (hv : (ObjCRuntime.mkFresh v params).is_valid = true)
    (hm : mem.word v = none) :
    ((ObjCRuntime.mkFresh v params).read_class_data mem cache).data = ClassData.invalid := by
  simp only [ObjCRuntime.read_class_data, htag, hv]
  simp only [ObjCRuntime.read_isa, ObjCRuntime.mkFresh, Nat.add_zero, hm]
  simp

lemma rcd_data_invalid_one (params : SysParams) (mem : Memory) (v : Nat) (cache : Cache)
    (htag : (ObjCRuntime.mkFresh v params).is_tagged = false)
    (hv : (ObjCRuntime.mkFresh v params).is_valid = true)
    (hm : mem.word v = some 1) :
    ((ObjCRuntime.mkFresh v params).read_class_data mem cache).data = ClassData.invalid := by
  simp only [ObjCRuntime.read_class_data, htag, hv]
  simp only [ObjCRuntime.read_isa, ObjCRuntime.mkFresh, Nat.add_zero, hm]
  simp

lemma rcd_eq_hit (params : SysParams) (mem : Memory) (v : Nat) (cache : Cache)
    (htag : (ObjCRuntime.mkFresh v params).is_tagged = false)
    (hv : (ObjCRuntime.mkFresh v params).is_valid = true)
    (w : Nat) (hm : mem.word v = some w) (hw : (w == 1) = false)
    (data : ClassData) (hget : Cache.get_value cache w = some data) :
    (ObjCRuntime.mkFresh v params).read_class_data mem cache
      = { data := data,
          rt := { unsigned_value := v, sys_params := params, isa_value := some w },
          cache := cache, reads := [ReadEv.word v] } := by
  simp only [ObjCRuntime.read_class_data, htag, hv]
  simp only [ObjCRuntime.read_isa, ObjCRuntime.mkFresh, Nat.add_zero, hm]
  simp [hget, hw]

lemma rcd_eq_miss (params : SysParams) (mem : Memory) (v : Nat) (cache : Cache)
    (htag : (ObjCRuntime.mkFresh v params).is_tagged = false)
    (hv : (ObjCRuntime.mkFresh v params).is_valid = true)
    (w : Nat) (hm : mem.word v = some w) (hw : (w == 1) = false)
    (hget : Cache.get_value cache w = none) :
    (ObjCRuntime.mkFresh v params).read_class_data mem cache
      = { data := (if params.runtime_version == 2 then
                     (ClassData.v2 (Class_Data_V2.mk' (some w) params mem).1,
                      (Class_Data_V2.mk' (some w) params mem).2)
                   else
                     (ClassData.v1 (Class_Data_V1.mk' (some w) params mem).1,
                      (Class_Data_V1.mk' (some w) params mem).2)).1,
          rt := { unsigned_value := v, sys_params := params, isa_value := some w },
          cache :=
            if (if params.runtime_version == 2 then
                  (ClassData.v2 (Class_Data_V2.mk' (some w) params mem).1,
                   (Class_Data_V2.mk' (some w) params mem).2)
                else
                  (ClassData.v1 (Class_Data_V1.mk' (some w) params mem).1,
                   (Class_Data_V1.mk' (some w) params mem).2)).1.is_valid
            then (w,
                  (if params.runtime_version == 2 then
                     (ClassData.v2 (Class_Data_V2.mk' (some w) params mem).1,
                      (Class_Data_V2.mk' (some w) params mem).2)
                   else
                     (ClassData.v1 (Class_Data_V1.mk' (some w) params mem).1,
                      (Class_Data_V1.mk' (some w) params mem).2)).1) :: cache
            else cache,
          reads :=
            ReadEv.word v ::
              (if params.runtime_version == 2 then
                 (ClassData.v2 (Class_Data_V2.mk' (some w) params mem).1,
                  (Class_Data_V2.mk' (some w) params mem).2)
               else
                 (ClassData.v1 (Class_Data_V1.mk' (some w) params mem).1,
                  (Class_Data_V1.mk' (some w) params mem).2)).2 } := by
  simp only [ObjCRuntime.read_class_data, htag, hv]
  simp only [ObjCRuntime.read_isa, ObjCRuntime.mkFresh, Nat.add_zero, hm]
  simp [hw, hget, Cache.add_item]

/-- C3 counterexample: on `memBadMeta` the walk of the class at 0x2000
fails, so nothing is cached, and a second resolution of the object at
0x1000 re-reads the class metadata at 0x2000 instead of answering from
the cache after the isa read alone. -/
theorem second_resolution_rereads_metadata :
    (((ObjCRuntime.mkFresh 0x1000 params8v2).read_class_data memBadMeta
        ((ObjCRuntime.mkFresh 0x1000 params8v2).read_class_data memBadMeta []).cache).reads
      = [ReadEv.word 0x1000, ReadEv.word 0x2000]) ∧
    ReadEv.word 0x2000 ∈
      ((ObjCRuntime.mkFresh 0x1000 params8v2).read_class_data memBadMeta
        ((ObjCRuntime.mkFresh 0x1000 params8v2).read_class_data memBadMeta []).cache).reads := by
  decide

/-- C3 amended: for a non-tagged object pointer whose resolution returns
a VALID descriptor, resolving a second time against the unchanged image
(with a fresh runtime object, starting from the cache the first call
returned) yields the identical descriptor, reads only the object's isa
field, and leaves the cache unchanged.  (When the first walk fails the
descriptor is not cached and a second call repeats the metadata reads —
see the counterexample; tagged pointers are never cached and are re-
decoded without any read.) -/
theorem read_class_data_idempotent (params : SysParams) (mem : Memory) (v : Nat)
    (cache : Cache)
    (htag : (ObjCRuntime.mkFresh v params).is_tagged = false)
    (hvalid : ((ObjCRuntime.mkFresh v params).read_class_data mem cache).data.is_valid
      = true) :
    ((ObjCRuntime.mkFresh v params).read_class_data mem
        ((ObjCRuntime.mkFresh v params).read_class_data mem cache).cache).data
      = ((ObjCRuntime.mkFresh v params).read_class_data mem cache).data ∧
    ((ObjCRuntime.mkFresh v params).read_class_data mem
        ((ObjCRuntime.mkFresh v params).read_class_data mem cache).cache).reads
      = [ReadEv.word v] ∧
    ((ObjCRuntime.mkFresh v params).read_class_data mem
        ((ObjCRuntime.mkFresh v params).read_class_data mem cache).cache).cache
      = ((ObjCRuntime.mkFresh v params).read_class_data mem cache).cache := by
  by_cases hv : (ObjCRuntime.mkFresh v params).is_valid = true
  case neg =>
    exfalso
    have hvf : (ObjCRuntime.mkFresh v params).is_valid = false := by
      cases hB : (ObjCRuntime.mkFresh v params).is_valid
      · rfl
      · exact absurd hB hv
    simp only [ObjCRuntime.read_class_data, htag, hvf] at hvalid
    simp [ClassData.is_valid] at hvalid
  case pos =>
  rcases hm : mem.word v with _ | w
  · exfalso
    rw [rcd_data_invalid_none params mem v cache htag hv hm] at hvalid
    simp [ClassData.is_valid] at hvalid
  by_cases hw1 : w = 1
  · exfalso
    subst hw1
    rw [rcd_data_invalid_one params mem v cache htag hv hm] at hvalid
    simp [ClassData.is_valid] at hvalid
  have hw : (w == 1) = false := by simp [hw1]
  rcases hget : Cache.get_value cache w with _ | data
  · set W := (if params.runtime_version == 2 then
        (ClassData.v2 (Class_Data_V2.mk' (some w) params mem).1,
         (Class_Data_V2.mk' (some w) params mem).2)
      else
        (ClassData.v1 (Class_Data_V1.mk' (some w) params mem).1,
         (Class_Data_V1.mk' (some w) params mem).2)) with hW
    have h1 := rcd_eq_miss params mem v cache htag hv w hm hw hget
    rw [← hW] at h1
    simp only [h1] at hvalid ⊢
    try dsimp only at hvalid ⊢
    rw [if_pos hvalid]
    have hget2 : Cache.get_value ((w, W.1) :: cache) w = some W.1 := by
      simp [Cache.get_value]
    have h2 := rcd_eq_hit params mem v ((w, W.1) :: cache) htag hv w hm hw W.1 hget2
    simp only [h2]
    exact ⟨trivial, trivial, trivial⟩
  · have h1 := rcd_eq_hit params mem v cache htag hv w hm hw data hget
    simp only [h1]
    exact ⟨trivial, trivial, trivial⟩

/-- C3 witness for the amended theorem: the object at 0x1000 in
`memGood` resolves to the valid "Foo" descriptor; the second resolution
is answered from the cache with only the isa read. -/
theorem read_class_data_idempotent_witness :
    ((ObjCRuntime.mkFresh 0x1000 params8v2).is_tagged = false ∧
     ((ObjCRuntime.mkFresh 0x1000 params8v2).read_class_data memGood []).data.is_valid
       = true) ∧
    (((ObjCRuntime.mkFresh 0x1000 params8v2).read_class_data memGood
        ((ObjCRuntime.mkFresh 0x1000 params8v2).read_class_data memGood []).cache).data
      = ((ObjCRuntime.mkFresh 0x1000 params8v2).read_class_data memGood []).data ∧
    ((ObjCRuntime.mkFresh 0x1000 params8v2).read_class_data memGood
        ((ObjCRuntime.mkFresh 0x1000 params8v2).read_class_data memGood []).cache).reads
      = [ReadEv.word 0x1000] ∧
    ((ObjCRuntime.mkFresh 0x1000 params8v2).read_class_data memGood
        ((ObjCRuntime.mkFresh 0x1000 params8v2).read_class_data memGood []).cache).cache
      = ((ObjCRuntime.mkFresh 0x1000 params8v2).read_class_data memGood []).cache) :=
  ⟨⟨by decide, by decide⟩,
   read_class_data_idempotent params8v2 memGood 0x1000 [] (by decide) (by decide)⟩
